import Mathlib

/-!
Verification of the CRSF protocol engine (`ESP_CRSF.c` and its header).

Machine bytes are modelled as `Nat` values, with `% 256` (resp. `% 2^16`,
`% 2^24`, `% 2^32`) applied wherever the C code's fixed-width unsigned
arithmetic truncates.  Signed 32-bit quantities are modelled as `Int` together
with explicit two's-complement bit-pattern conversions.
-/

set_option maxRecDepth 40000

namespace EspCrsf

/-- One round of the table-generation loop in `generate_CRC`:
`crc = (crc << 1) ^ ((crc & 0x80) ? poly : 0);` where `crc` is a `uint8_t`
(the assignment truncates mod 256). -/
def crcStep (poly crc : Nat) : Nat :=
  ((crc <<< 1) ^^^ (if crc &&& 0x80 ≠ 0 then poly else 0)) % 256

/-- The inner `for (shift = 0; shift < 8; ++shift)` loop of `generate_CRC`:
iterate `crcStep` a given number of times. -/
def crcRounds (poly : Nat) : Nat → Nat → Nat
  | 0, crc => crc
  | n + 1, crc => crcRounds poly n (crcStep poly crc)

/-- Entry `idx` of the lookup table built by `generate_CRC(poly)`:
start from `uint8_t crc = idx;`, run 8 rounds, store `crc & 0xff`. -/
def generate_CRC (poly idx : Nat) : Nat :=
  crcRounds poly 8 (idx % 256) % 256

/-- The `crc8_table` contents after `CRSF_init` has called `generate_CRC(0xd5)`. -/
def crc8_table (idx : Nat) : Nat := generate_CRC 0xd5 idx

/-- The `crc8` function: fold each input byte through `crc8_table[crc ^ b]`
starting from `crc = 0` (`uint8_t` arithmetic, so the table index is the
xor reduced mod 256). -/
def crc8 (data : List Nat) : Nat :=
  data.foldl (fun crc b => crc8_table ((crc ^^^ b) % 256)) 0

/-- The message bytes read as one natural number, most significant byte first
(the polynomial-coefficient encoding of the message over GF(2)). -/
def bytesToNat (data : List Nat) : Nat :=
  data.foldl (fun acc b => acc * 256 + b % 256) 0

/-- Long division of a GF(2) polynomial (bit pattern `n`) by the generator
x^8 + x^7 + x^6 + x^4 + x^2 + 1 (bit pattern 0x1d5), clearing one dividend
term per step: the call with first argument `k + 1` examines the coefficient
of x^(k+8) and, if present, subtracts (xors) the generator shifted by k. -/
def gf2Mod : Nat → Nat → Nat
  | 0, n => n
  | k + 1, n => gf2Mod k (if n &&& (1 <<< (k + 8)) ≠ 0 then n ^^^ (0x1d5 <<< k) else n)

/-- Independent mathematical reference CRC8 for polynomial 0xd5 (no table, no
byte folding): the remainder of message(x) * x^8 modulo the generator
polynomial. -/
def crcMathRef (data : List Nat) : Nat :=
  gf2Mod (8 * data.length) (bytesToNat data <<< 8)

/-! ## Frame encoding: CRSF_send_payload -/

/-- The `memcpy(&packet[3], payload, payload_length)` loop viewed byte by byte:
store each payload byte into the buffer at consecutive indices (a `uint8_t`
store, hence the mod 256). -/
def memcpyAt : List Nat → Nat → List Nat → List Nat
  | buf, _, [] => buf
  | buf, i, b :: rest => memcpyAt (buf.set i (b % 256)) (i + 1) rest

/-- Model of `CRSF_send_payload`: build the `uint8_t packet[payload_length + 4]` buffer
exactly as the C code does — write destination, length byte
(`payload_length + 2`, a `uint8_t`), type, memcpy the payload at offset 3,
then compute `crc8(&packet[2], payload_length + 1)` over the buffer contents
and store it at the end.  The returned list is the byte sequence handed to
`uart_write_bytes`. -/
def CRSF_send_payload (destination ty : Nat) (payload : List Nat) : List Nat :=
  let n := payload.length
  let packet := List.replicate (n + 4) 0
  let packet := packet.set 0 (destination % 256)
  let packet := packet.set 1 ((n + 2) % 256)
  let packet := packet.set 2 (ty % 256)
  let packet := memcpyAt packet 3 payload
  let checksum := crc8 ((packet.drop 2).take (n + 1))
  packet.set (n + 3) checksum

/-! ## The receive task -/

def CRSF_TYPE_CHANNELS : Nat := 0x16
def CRSF_TYPE_LINK_STATISTICS : Nat := 0x14
def CRSF_TYPE_BATTERY : Nat := 0x08
def CRSF_TYPE_GPS : Nat := 0x02
def CRSF_TYPE_RPM : Nat := 0x0c
def CRSF_TYPE_TEMP : Nat := 0x0d
def CRSF_DEST_FC : Nat := 0xc8

/-- Reading byte `i` of the receive buffer `dtmp`: the buffer is `bzero`-ed
before `uart_read_bytes` copies the event's bytes into its front, so every
index beyond the received chunk reads 0. -/
def byteAt (buf : List Nat) (i : Nat) : Nat := buf.getD i 0 % 256

/-- The `payload` variable-length array built by `rx_task`:
`payload_length = length - 2` in `uint8_t` arithmetic, bytes copied from
`dtmp[i + 3]`. -/
def rx_payload (buf : List Nat) : List Nat :=
  (List.range ((byteAt buf 1 + 254) % 256)).map (fun i => byteAt buf (i + 3))

/-- The mutable state touched by `rx_task`: the two shared structs (kept as
their raw byte contents), the failsafe flag, and the absolute time at which
the armed one-shot failsafe timer will fire. -/
structure CrsfState where
  received_channels : List Nat
  received_link_statistics : List Nat
  failsafe_flag : Bool
  timer_deadline : Nat
deriving DecidableEq, Repr

/-- State at the end of `CRSF_init`: both structs zero-initialised,
`failsafe_flag = true`, and the 500 ms one-shot timer started (so, taking the
end of `CRSF_init` as time 0, it fires at time 500). -/
def init_state : CrsfState :=
  ⟨List.replicate 22 0, List.replicate 10 0, true, 500⟩

/-- One `UART_DATA` iteration of `rx_task` at time `now` on the `bzero`-ed
buffer `buf`: read `dest`/`length`/`type` from the first three bytes, build
the payload array, and dispatch on the type byte with **no checksum
comparison and no check that the event delivered a whole frame**.  The
channels case copies `sizeof(crsf_channels_t) = 22` bytes starting at
`payload[0]` (they sit at `dtmp[3..24]`; if `payload_length < 22` the C copy
overruns the VLA, so this model is faithful exactly when
`payload_length ≥ 22`, which holds in every theorem below), resets the
failsafe timer and clears the flag; the link-statistics case copies the
10-byte struct; every other type falls through the `switch` untouched. -/
def rx_event (st : CrsfState) (now : Nat) (buf : List Nat) : CrsfState :=
  let ty := byteAt buf 2
  if ty = CRSF_TYPE_CHANNELS then
    { st with
      received_channels := (List.range 22).map (fun i => byteAt buf (i + 3)),
      failsafe_flag := false,
      timer_deadline := now + 500 }
  else if ty = CRSF_TYPE_LINK_STATISTICS then
    { st with received_link_statistics := (List.range 10).map (fun i => byteAt buf (i + 3)) }
  else st

/-! ## Failsafe monitor -/

/-- The failsafe-relevant projection of the state: the flag written by
`failsafe_timer_callback` / the channels case of `rx_task`, and the absolute
time at which the armed one-shot timer fires. -/
structure FailsafeState where
  failsafe_flag : Bool
  timer_deadline : Nat
deriving DecidableEq, Repr

/-- Failsafe state right after `CRSF_init`: flag set `true`, timer started
with period `pdMS_TO_TICKS(500)`. -/
def failsafe_start : FailsafeState := ⟨true, 500⟩

/-- Effect of one valid channels frame processed by `rx_task` at time `now`:
`xTimerReset` re-arms the one-shot timer to fire 500 ms later and the flag is
cleared.  (If the timer had already expired before `now`, its callback had set
the flag; both fields are overwritten here, so the fold below needs no
separate expiry events.) -/
def failsafe_on_channel_frame (now : Nat) (_s : FailsafeState) : FailsafeState :=
  ⟨false, now + 500⟩

/-- Failsafe state after processing, in order, the channel frames whose
arrival times are listed. -/
def failsafe_after (frames : List Nat) : FailsafeState :=
  frames.foldl (fun s τ => failsafe_on_channel_frame τ s) failsafe_start

/-- Query `CRSF_is_failsafe()` at time `t`, given the (sorted) arrival times
of all valid channel frames: frames up to `t` have been processed, and the
timer callback (`failsafe_timer_callback`, which sets the flag) has run iff
the armed deadline has passed. -/
def CRSF_is_failsafe (frames : List Nat) (t : Nat) : Bool :=
  let s := failsafe_after (frames.filter (fun τ => decide (τ ≤ t)))
  s.failsafe_flag || decide (s.timer_deadline ≤ t)

/-! ## 24-bit RPM values -/

/-- Two's-complement bit pattern of an `int32_t` value, i.e. the C conversion
`(uint32_t)val`. -/
def toUInt32 (v : Int) : Nat := (v % (2 ^ 32 : Int)).toNat

/-- Reinterpret a 32-bit pattern as a signed `int32_t` value. -/
def toInt32 (u : Nat) : Int :=
  if u % 2 ^ 32 ≥ 2 ^ 31 then (u % 2 ^ 32 : Nat) - (2 ^ 32 : Int) else (u % 2 ^ 32 : Nat)

/-- Function `bswap24`: swap only the lower 24 bits of a `uint32_t` (note the top byte
is dropped, not preserved — no term of the expression keeps `value & 0xFF000000`). -/
def bswap24 (value : Nat) : Nat :=
  ((value &&& 0x0000FF) <<< 16) ||| (value &&& 0x00FF00) ||| ((value &&& 0xFF0000) >>> 16)

/-- The packed `int24_t` struct: three bytes, `byte0` first in memory and on
the wire. -/
structure Int24 where
  byte0 : Nat
  byte1 : Nat
  byte2 : Nat
deriving DecidableEq, Repr

/-- Function `int32_to_int24`: take the low three bytes of the argument's bit pattern
(`val & 0xFF`, `(val >> 8) & 0xFF`, `(val >> 16) & 0xFF`; the argument is
passed as its two's-complement pattern, which agrees with C's arithmetic
shift-then-mask on negatives). -/
def int32_to_int24 (u : Nat) : Int24 :=
  ⟨u &&& 0xFF, (u >>> 8) &&& 0xFF, (u >>> 16) &&& 0xFF⟩

/-- Function `int24_to_int32`: reassemble `(byte2 << 16) | (byte1 << 8) | byte0`, then
sign-extend from bit 23 by or-ing `0xFF000000` into the pattern, and
reinterpret as a signed `int32_t`. -/
def int24_to_int32 (t : Int24) : Int :=
  let r := (t.byte2 <<< 16) ||| (t.byte1 <<< 8) ||| t.byte0
  let r2 := if r &&& 0x800000 ≠ 0 then r ||| 0xFF000000 else r
  toInt32 r2

/-- The per-value RPM packing done by `CRSF_send_rpm_values`:
`int32_to_int24(bswap24(rpm_values[i]))`. -/
def rpm_pack (v : Int) : Int24 := int32_to_int24 (bswap24 (toUInt32 v))

/-- Decode of one RPM triplet from the wire.  The receive path is outside the
repository; per the wire format the triplet is big-endian, so the bytes are
read back in reverse memory order and sign-extended from bit 23 by the
repository's own `int24_to_int32`. -/
def rpm_unpack (t : Int24) : Int := int24_to_int32 ⟨t.byte2, t.byte1, t.byte0⟩

/-- Model of `CRSF_send_rpm_values`: cap `num_values` at 19, build the packed
`crsf_rpm_t` payload (source id byte followed by the packed triplets in
memory order), and frame it via `CRSF_send_payload`.  Returns the number of
encoded entries and the emitted frame. -/
def CRSF_send_rpm_values (dest source_id : Nat) (rpm_values : List Int)
    (num_values : Nat) : Nat × List Nat :=
  let n := if num_values > 19 then 19 else num_values
  let payload := source_id % 256 ::
    ((rpm_values.take n).map
      (fun v => [(rpm_pack v).byte0, (rpm_pack v).byte1, (rpm_pack v).byte2])).flatten
  (n, CRSF_send_payload dest CRSF_TYPE_RPM payload)

/-! ## Battery, GPS and temperature telemetry -/

/-- Builtin `__bswap16` on a value truncated to `uint16_t`: exchange the two bytes. -/
def __bswap16 (v : Nat) : Nat :=
  (((v % 2 ^ 16) &&& 0xFF) <<< 8) ||| ((v % 2 ^ 16) >>> 8)

/-- Builtin `__bswap32` on a value truncated to `uint32_t`: reverse the four bytes. -/
def __bswap32 (v : Nat) : Nat :=
  (((v % 2 ^ 32) &&& 0xFF) <<< 24) ||| (((v % 2 ^ 32) &&& 0xFF00) <<< 8) |||
    (((v % 2 ^ 32) &&& 0xFF0000) >>> 8) ||| ((v % 2 ^ 32) >>> 24)

/-- The packed `crsf_battery_t` bitfield struct: voltage and current 16 bits,
capacity 24 bits, remaining 8 bits. -/
structure CrsfBattery where
  voltage : Nat
  current : Nat
  capacity : Nat
  remaining : Nat
deriving DecidableEq, Repr

/-- Memory (= wire) bytes of a `crsf_battery_t` value: the packed bitfields
are laid out least-significant byte first on the little-endian target. -/
def battery_bytes (b : CrsfBattery) : List Nat :=
  [b.voltage % 256, b.voltage / 256 % 256,
   b.current % 256, b.current / 256 % 256,
   b.capacity % 256, b.capacity / 256 % 256, b.capacity / 65536 % 256,
   b.remaining % 256]

/-- Model of `CRSF_send_battery_data`: byte-swap the caller's struct **in place**
(`payload_proc` aliases `payload`) — `voltage` and `current` through
`__bswap16`, `capacity` through `__bswap16` of its *low 16 bits* shifted left
by 8 (stored back into the 24-bit bitfield) — then frame the mutated struct's
8 bytes.  Returns the struct as left behind in the caller's memory and the
emitted frame. -/
def CRSF_send_battery_data (dest : Nat) (b : CrsfBattery) : CrsfBattery × List Nat :=
  let proc : CrsfBattery :=
    { voltage := __bswap16 b.voltage,
      current := __bswap16 b.current,
      capacity := (__bswap16 b.capacity <<< 8) % 2 ^ 24,
      remaining := b.remaining }
  (proc, CRSF_send_payload dest CRSF_TYPE_BATTERY (battery_bytes proc))

/-- The packed `crsf_gps_t` struct. -/
structure CrsfGps where
  latitude : Int
  longitude : Int
  groundspeed : Nat
  heading : Nat
  altitude : Nat
  satellites : Nat
deriving DecidableEq, Repr

/-- Memory (= wire) bytes of a `crsf_gps_t` value (13 bytes, packed,
little-endian target; the two `int32_t` fields are stored as their
two's-complement patterns). -/
def gps_bytes (g : CrsfGps) : List Nat :=
  let la := toUInt32 g.latitude
  let lo := toUInt32 g.longitude
  [la % 256, la / 256 % 256, la / 65536 % 256, la / 16777216 % 256,
   lo % 256, lo / 256 % 256, lo / 65536 % 256, lo / 16777216 % 256,
   g.groundspeed % 256, g.groundspeed / 256 % 256,
   g.heading % 256, g.heading / 256 % 256,
   g.altitude % 256, g.altitude / 256 % 256,
   g.satellites % 256]

/-- Model of `CRSF_send_gps_data`: byte-swap the caller's struct **in place**
(latitude/longitude through `__bswap32` on their bit patterns, the three
16-bit fields through `__bswap16`) and frame the mutated struct's bytes. -/
def CRSF_send_gps_data (dest : Nat) (g : CrsfGps) : CrsfGps × List Nat :=
  let proc : CrsfGps :=
    { latitude := toInt32 (__bswap32 (toUInt32 g.latitude)),
      longitude := toInt32 (__bswap32 (toUInt32 g.longitude)),
      groundspeed := __bswap16 g.groundspeed,
      heading := __bswap16 g.heading,
      altitude := __bswap16 g.altitude,
      satellites := g.satellites }
  (proc, CRSF_send_payload dest CRSF_TYPE_GPS (gps_bytes proc))

/-- Model of `CRSF_send_temp_data`: byte-swap the first `num_temps` entries of the
caller's `temp_value` array **in place** (each entry a 16-bit pattern through
`__bswap16`), then frame `payload_size = 1 + 2 * num_temps` bytes of the
struct — **with no cap on `num_temps`**.  Returns the caller's array as left
behind and the emitted frame. -/
def CRSF_send_temp_data (dest temp_source_id : Nat) (temps : List Nat)
    (num_temps : Nat) : List Nat × List Nat :=
  let mutated := (temps.take num_temps).map (fun v => __bswap16 v) ++ temps.drop num_temps
  let payload := temp_source_id % 256 ::
    ((mutated.take num_temps).map (fun v => [v % 256, v / 256 % 256])).flatten
  (mutated, CRSF_send_payload dest CRSF_TYPE_TEMP payload)

/-! ## Concrete frames used by the error-handling claims -/

/-- A 22-byte channels payload used as concrete test data. -/
def sample_channels_payload : List Nat :=
  (List.range 22).map (fun i => 10 * (i + 1) % 256)

/-- A well-formed channels frame carrying `sample_channels_payload`
(destination `CRSF_DEST_FC`, length byte 24, correct trailing checksum). -/
def sample_channels_frame : List Nat :=
  CRSF_DEST_FC :: 24 :: CRSF_TYPE_CHANNELS :: sample_channels_payload ++
    [crc8 (CRSF_TYPE_CHANNELS :: sample_channels_payload)]

/-- The same frame with the low bit of the trailing checksum byte flipped. -/
def sample_channels_frame_badcrc : List Nat :=
  CRSF_DEST_FC :: 24 :: CRSF_TYPE_CHANNELS :: sample_channels_payload ++
    [crc8 (CRSF_TYPE_CHANNELS :: sample_channels_payload) ^^^ 1]

/-! ## Helper lemmas -/

/-- A list maps to itself exactly when the function fixes every element. -/
theorem map_eq_self_iff (f : Nat → Nat) (l : List Nat) :
    l.map f = l ↔ ∀ x ∈ l, f x = x := by
  induction l with
  | nil => simp
  | cons a l ih => simp [ih]

/-- Setting the cell just after a prefix of known length replaces the head of
the remaining suffix. -/
theorem set_append_length_eq (A : List Nat) (x v : Nat) (t : List Nat) :
    (A ++ x :: t).set A.length v = A ++ v :: t := by
  induction A with
  | nil => rfl
  | cons a A ih => simp [List.set, ih]

/-- Running the memcpy loop over a zeroed window surrounded by untouched
cells writes exactly the payload bytes (truncated mod 256) into the window. -/
theorem memcpyAt_fill (payload : List Nat) :
    ∀ A B : List Nat,
      memcpyAt (A ++ (List.replicate payload.length 0 ++ B)) A.length payload =
        A ++ (payload.map (fun b => b % 256) ++ B) := by
  induction payload with
  | nil => intro A B; simp [memcpyAt]
  | cons b rest ih =>
    intro A B
    have h1 : A ++ (List.replicate (b :: rest).length 0 ++ B) =
        A ++ 0 :: (List.replicate rest.length 0 ++ B) := by
      simp [List.replicate_succ]
    rw [h1]
    show memcpyAt ((A ++ 0 :: (List.replicate rest.length 0 ++ B)).set A.length (b % 256))
        (A.length + 1) rest = _
    rw [set_append_length_eq]
    have h2 : A ++ (b % 256) :: (List.replicate rest.length 0 ++ B) =
        (A ++ [b % 256]) ++ (List.replicate rest.length 0 ++ B) := by simp
    have h3 : A.length + 1 = (A ++ [b % 256]).length := by simp
    rw [h2, h3, ih (A ++ [b % 256]) B]
    simp

/-- Masking with a left-shifted mask equals shifting down, masking, and
shifting back up. -/
theorem and_shiftLeft_mask (x m k : Nat) : x &&& (m <<< k) = ((x >>> k) &&& m) <<< k := by
  apply Nat.eq_of_testBit_eq
  intro i
  rcases Nat.lt_or_ge i k with h | h
  · simp [Nat.testBit_and, Nat.testBit_shiftLeft, Nat.not_le.mpr h]
  · simp [Nat.testBit_and, Nat.testBit_shiftLeft, Nat.testBit_shiftRight, h,
      Nat.add_sub_cancel' h]

/-- Masking with 0xff is reduction mod 256. -/
theorem and_mask_ff (x : Nat) : x &&& 255 = x % 256 :=
  Nat.and_pow_two_sub_one_eq_mod x 8

/-- Masking with 0xff00 extracts the second byte in place. -/
theorem and_mask_ff00 (x : Nat) : x &&& 65280 = x / 256 % 256 * 256 := by
  rw [show (65280 : Nat) = 255 <<< 8 by norm_num [Nat.shiftLeft_eq], and_shiftLeft_mask,
    and_mask_ff, Nat.shiftRight_eq_div_pow, Nat.shiftLeft_eq]

/-- Masking with 0xff0000 extracts the third byte in place. -/
theorem and_mask_ff0000 (x : Nat) : x &&& 16711680 = x / 65536 % 256 * 65536 := by
  rw [show (16711680 : Nat) = 255 <<< 16 by norm_num [Nat.shiftLeft_eq], and_shiftLeft_mask,
    and_mask_ff, Nat.shiftRight_eq_div_pow, Nat.shiftLeft_eq]

/-- Masking with 0x800000 extracts bit 23 in place. -/
theorem and_mask_bit23 (x : Nat) : x &&& 8388608 = x / 2 ^ 23 % 2 * 2 ^ 23 := by
  rw [show (8388608 : Nat) = 1 <<< 23 by norm_num [Nat.shiftLeft_eq], and_shiftLeft_mask,
    Nat.shiftRight_eq_div_pow, Nat.shiftLeft_eq]
  have h1 : x / 2 ^ 23 &&& 1 = x / 2 ^ 23 % 2 :=
    Nat.and_pow_two_sub_one_eq_mod (x / 2 ^ 23) 1
  rw [h1]

/-- An or whose right operand lies below the left operand's alignment is a
plain addition. -/
theorem or_as_add_pow (k a b : Nat) (h : b < 2 ^ k) : a * 2 ^ k ||| b = a * 2 ^ k + b := by
  have h3 := (Nat.mul_add_lt_is_or h a).symm
  simpa [Nat.mul_comm] using h3

/-- Extracting the three bytes of a three-byte composite recovers the parts. -/
theorem bytes_recompose (a b c : Nat) (ha : a < 256) (hb : b < 256) (hc : c < 256) :
    (a * 65536 + b * 256 + c) % 256 = c ∧
    (a * 65536 + b * 256 + c) / 256 % 256 = b ∧
    (a * 65536 + b * 256 + c) / 65536 % 256 = a :=
  ⟨by omega, by omega, by omega⟩

/-- Arithmetic characterisation of `bswap24`: the low three bytes in reverse
order (the top byte of the argument is discarded). -/
theorem bswap24_eq (u : Nat) :
    bswap24 u = u % 256 * 65536 + u / 256 % 256 * 256 + u / 65536 % 256 := by
  unfold bswap24
  rw [and_mask_ff, and_mask_ff00, and_mask_ff0000, Nat.shiftLeft_eq, Nat.shiftRight_eq_div_pow]
  have hdiv : u / 65536 % 256 * 65536 / 2 ^ 16 = u / 65536 % 256 := by omega
  rw [hdiv]
  have hor1 : u % 256 * 2 ^ 16 ||| u / 256 % 256 * 256 = u % 256 * 2 ^ 16 + u / 256 % 256 * 256 :=
    or_as_add_pow 16 (u % 256) (u / 256 % 256 * 256) (by omega)
  rw [hor1, show u % 256 * 2 ^ 16 + u / 256 % 256 * 256 =
    (u % 256 * 256 + u / 256 % 256) * 2 ^ 8 by ring,
    or_as_add_pow 8 (u % 256 * 256 + u / 256 % 256) (u / 65536 % 256) (by omega)]
  ring

/-- Arithmetic characterisation of `int32_to_int24`: the three bytes of the
bit pattern, low byte first. -/
theorem int32_to_int24_eq (u : Nat) :
    int32_to_int24 u = ⟨u % 256, u / 256 % 256, u / 65536 % 256⟩ := by
  unfold int32_to_int24
  rw [Nat.shiftRight_eq_div_pow, Nat.shiftRight_eq_div_pow, and_mask_ff, and_mask_ff,
    and_mask_ff]

/-- Arithmetic characterisation of `int24_to_int32` on byte-valued fields:
reassemble big-`byte2` first, then subtract 2^24 when bit 23 is set. -/
theorem int24_to_int32_eq (a b c : Nat) (ha : a < 256) (hb : b < 256) (hc : c < 256) :
    int24_to_int32 ⟨a, b, c⟩ =
      if 2 ^ 23 ≤ c * 65536 + b * 256 + a then (c * 65536 + b * 256 + a : Int) - 2 ^ 24
      else (c * 65536 + b * 256 + a : Int) := by
  show toInt32 (if ((c <<< 16) ||| (b <<< 8) ||| a) &&& 0x800000 ≠ 0
      then ((c <<< 16) ||| (b <<< 8) ||| a) ||| 0xFF000000
      else (c <<< 16) ||| (b <<< 8) ||| a) = _
  have hr : (c <<< 16) ||| (b <<< 8) ||| a = c * 65536 + b * 256 + a := by
    rw [Nat.shiftLeft_eq, Nat.shiftLeft_eq]
    have hor1 : c * 2 ^ 16 ||| b * 2 ^ 8 = c * 2 ^ 16 + b * 2 ^ 8 :=
      or_as_add_pow 16 c (b * 2 ^ 8) (by omega)
    rw [hor1, show c * 2 ^ 16 + b * 2 ^ 8 = (c * 256 + b) * 2 ^ 8 by ring,
      or_as_add_pow 8 (c * 256 + b) a (by omega)]
    ring
  rw [hr]
  have hbit : (c * 65536 + b * 256 + a) &&& 8388608 ≠ 0 ↔
      2 ^ 23 ≤ c * 65536 + b * 256 + a := by
    rw [and_mask_bit23]
    omega
  by_cases hx : 2 ^ 23 ≤ c * 65536 + b * 256 + a
  · rw [if_pos (hbit.mpr hx), if_pos hx]
    have hor : (c * 65536 + b * 256 + a) ||| 0xFF000000 = 4278190080 + (c * 65536 + b * 256 + a) := by
      rw [Nat.lor_comm, show (4278190080 : Nat) = 255 * 2 ^ 24 by norm_num,
        or_as_add_pow 24 255 (c * 65536 + b * 256 + a) (by omega)]
    rw [hor]
    unfold toInt32
    rw [Nat.mod_eq_of_lt (show 4278190080 + (c * 65536 + b * 256 + a) < 2 ^ 32 by omega),
      if_pos (show 4278190080 + (c * 65536 + b * 256 + a) ≥ 2 ^ 31 by omega)]
    push_cast
    omega
  · rw [if_neg (fun hcon => hx (hbit.mp hcon)), if_neg hx]
    unfold toInt32
    rw [Nat.mod_eq_of_lt (show c * 65536 + b * 256 + a < 2 ^ 32 by omega)]
    rw [if_neg (show ¬ c * 65536 + b * 256 + a ≥ 2 ^ 31 by omega)]
    push_cast
    ring

/-! ## Claim theorems -/

/-- C3: the `crc8` checksum built from the `generate_CRC` table (polynomial
0xd5) agrees with the independent mathematical reference CRC8 `crcMathRef`
on every single-byte message (equivalently, on every table entry) and on
known multi-byte sequences, and the empty sequence yields 0. -/
theorem c3_crc8_matches_mathematical_reference :
    crc8 [] = 0 ∧
    (∀ i : Fin 256, crc8 [i.val] = crcMathRef [i.val]) ∧
    crc8 [0x31, 0x32, 0x33, 0x34, 0x35, 0x36, 0x37, 0x38, 0x39] =
      crcMathRef [0x31, 0x32, 0x33, 0x34, 0x35, 0x36, 0x37, 0x38, 0x39] ∧
    crc8 [0x16, 0x00, 0xff, 0x80, 0x7f] = crcMathRef [0x16, 0x00, 0xff, 0x80, 0x7f] ∧
    crc8 [0x08, 0x00, 0x01, 0x00, 0x02, 0x00, 0x00, 0x01, 0x64] =
      crcMathRef [0x08, 0x00, 0x01, 0x00, 0x02, 0x00, 0x00, 0x01, 0x64] := by
  decide

/-- C4: for every destination byte, type byte and payload within the maximum
frame size, `CRSF_send_payload` emits exactly
`[destination, payload.len + 2, type, payload..., checksum]` with the
checksum the CRC8-0xd5 of the type byte followed by the payload. -/
theorem c4_send_payload_frame_layout (destination ty : Nat) (payload : List Nat)
    (hd : destination < 256) (ht : ty < 256) (hb : ∀ b ∈ payload, b < 256)
    (hn : payload.length ≤ 60) :
    CRSF_send_payload destination ty payload =
      destination :: (payload.length + 2) :: ty :: payload ++ [crc8 (ty :: payload)] := by
  have hmap : payload.map (fun b => b % 256) = payload :=
    (map_eq_self_iff _ payload).mpr fun a ha => Nat.mod_eq_of_lt (hb a ha)
  have hrep : List.replicate (payload.length + 4) (0 : Nat) =
      0 :: 0 :: 0 :: (List.replicate payload.length 0 ++ [0]) := by
    rw [show payload.length + 4 = 3 + (payload.length + 1) by omega, List.replicate_add,
      List.replicate_succ' payload.length 0]
    rfl
  have hset : ((((0 : Nat) :: 0 :: 0 :: (List.replicate payload.length 0 ++ [0])).set 0
      destination).set 1 (payload.length + 2)).set 2 ty =
      destination :: (payload.length + 2) :: ty :: (List.replicate payload.length 0 ++ [0]) := rfl
  have hmem : memcpyAt (destination :: (payload.length + 2) :: ty ::
      (List.replicate payload.length 0 ++ [0])) 3 payload =
      destination :: (payload.length + 2) :: ty :: (payload ++ [0]) := by
    have h := memcpyAt_fill payload [destination, payload.length + 2, ty] [0]
    simpa [hmap] using h
  have hcrc : ((destination :: (payload.length + 2) :: ty :: (payload ++ [0])).drop 2).take
      (payload.length + 1) = ty :: payload := by
    show (ty :: (payload ++ [0])).take (payload.length + 1) = ty :: payload
    rw [List.take_succ_cons, List.take_left]
  have hfin : (destination :: (payload.length + 2) :: ty :: (payload ++ [0])).set
      (payload.length + 3) (crc8 (ty :: payload)) =
      destination :: (payload.length + 2) :: ty :: payload ++ [crc8 (ty :: payload)] := by
    have h0 : destination :: (payload.length + 2) :: ty :: (payload ++ [0]) =
        (destination :: (payload.length + 2) :: ty :: payload) ++ 0 :: [] := by simp
    have h1 : payload.length + 3 =
        (destination :: (payload.length + 2) :: ty :: payload).length := by
      simp only [List.length_cons]
    rw [h0, h1, set_append_length_eq]
  simp only [CRSF_send_payload, hrep, Nat.mod_eq_of_lt hd, Nat.mod_eq_of_lt ht,
    Nat.mod_eq_of_lt (show payload.length + 2 < 256 by omega)]
  rw [hset, hmem, hcrc, hfin]

/-- Witness for C4: the layout theorem instantiated at destination 0xc8, type
0x08 and a 2-byte payload. -/
theorem c4_witness :
    CRSF_send_payload 0xc8 0x08 [1, 2] =
      0xc8 :: ([1, 2].length + 2) :: 0x08 :: [1, 2] ++ [crc8 (0x08 :: [1, 2])] :=
  c4_send_payload_frame_layout 0xc8 0x08 [1, 2] (by decide) (by decide) (by decide) (by decide)

/-- C1 (code bug): a channels frame whose trailing checksum byte has its low
bit flipped — so the byte differs from `crc8(type ++ payload)` — is **not**
discarded by `rx_task`: the payload is still copied into
`received_channels`, the failsafe flag is still cleared and the failsafe
timer is still re-armed, because the receive path never computes or compares
the checksum. -/
theorem c1_bad_checksum_frame_still_updates_state :
    sample_channels_frame_badcrc.getD 26 0 ≠
      crc8 (CRSF_TYPE_CHANNELS :: sample_channels_payload) ∧
    rx_event init_state 100 sample_channels_frame_badcrc =
      { received_channels := sample_channels_payload,
        received_link_statistics := List.replicate 10 0,
        failsafe_flag := false,
        timer_deadline := 600 } := by
  decide

/-- C5 (code bug): delivering a well-formed channels frame split into a
5-byte chunk and a 22-byte chunk does not yield one correctly decoded frame.
`rx_task` treats each read event as a whole frame: it already "decodes" the
first 5-byte chunk (updating `received_channels` from mostly-zero buffer
contents instead of deferring), and after both chunks have arrived the stored
channel data still differs from the frame's actual payload. -/
theorem c5_fragmented_frame_decoded_early_and_wrong :
    rx_event init_state 0 (sample_channels_frame.take 5) ≠ init_state ∧
    (rx_event (rx_event init_state 0 (sample_channels_frame.take 5)) 0
        (sample_channels_frame.drop 5)).received_channels ≠ sample_channels_payload := by
  decide

/-- C10: a received frame whose type byte is neither `CRSF_TYPE_CHANNELS`
nor `CRSF_TYPE_LINK_STATISTICS` (battery, GPS, RPM, temperature, or any
unrecognized type) falls through the `switch` in `rx_task` and leaves the
whole shared state — stored channels, stored link statistics, failsafe flag
and failsafe timer — unchanged. -/
theorem c10_other_frame_types_leave_state_unchanged (st : CrsfState) (now : Nat)
    (buf : List Nat) (h1 : byteAt buf 2 ≠ CRSF_TYPE_CHANNELS)
    (h2 : byteAt buf 2 ≠ CRSF_TYPE_LINK_STATISTICS) :
    rx_event st now buf = st := by
  simp [rx_event, h1, h2]

/-- Witness for C10: a concrete battery-telemetry frame (type byte 0x08)
leaves the freshly initialised state untouched. -/
theorem c10_witness :
    rx_event init_state 0 [0xc8, 10, 0x08, 1, 2, 3, 4, 5, 6, 7, 8, 99] = init_state :=
  c10_other_frame_types_leave_state_unchanged init_state 0
    [0xc8, 10, 0x08, 1, 2, 3, 4, 5, 6, 7, 8, 99] (by decide) (by decide)

/-- C2: failsafe lifecycle.  With no valid channel frame received up to the
query time the flag reads true; it reads false from the moment a valid
channel frame is processed until 500 ms later; it reads true again once
500 ms pass without a further frame; and a second frame arriving 499 ms
after the first re-arms the window, keeping the flag false past the original
500 ms deadline until 500 ms after the second frame. -/
theorem c2_failsafe_lifecycle :
    (∀ (frames : List Nat) (t : Nat), (∀ τ ∈ frames, t < τ) →
      CRSF_is_failsafe frames t = true) ∧
    (∀ t0 t : Nat, t0 ≤ t → t < t0 + 500 → CRSF_is_failsafe [t0] t = false) ∧
    (∀ t0 t : Nat, t0 + 500 ≤ t → CRSF_is_failsafe [t0] t = true) ∧
    (∀ t0 t : Nat, t0 + 499 ≤ t → t < t0 + 999 →
      CRSF_is_failsafe [t0, t0 + 499] t = false) ∧
    (∀ t0 t : Nat, t0 + 999 ≤ t → CRSF_is_failsafe [t0, t0 + 499] t = true) := by
  refine ⟨?_, ?_, ?_, ?_, ?_⟩
  · intro frames t h
    have hf : frames.filter (fun τ => decide (τ ≤ t)) = [] :=
      List.filter_eq_nil_iff.mpr (fun a ha => by simpa using h a ha)
    simp [CRSF_is_failsafe, hf, failsafe_after, failsafe_start]
  · intro t0 t h1 h2
    have hf : [t0].filter (fun τ => decide (τ ≤ t)) = [t0] := by simp [List.filter, h1]
    simp [CRSF_is_failsafe, hf, failsafe_after, failsafe_start, failsafe_on_channel_frame]
    omega
  · intro t0 t h1
    have hf : [t0].filter (fun τ => decide (τ ≤ t)) = [t0] := by
      simp [List.filter, show t0 ≤ t by omega]
    simp [CRSF_is_failsafe, hf, failsafe_after, failsafe_start, failsafe_on_channel_frame]
    omega
  · intro t0 t h1 h2
    have hf : [t0, t0 + 499].filter (fun τ => decide (τ ≤ t)) = [t0, t0 + 499] := by
      simp [List.filter, show t0 ≤ t by omega, show t0 + 499 ≤ t by omega]
    simp [CRSF_is_failsafe, hf, failsafe_after, failsafe_start, failsafe_on_channel_frame]
    omega
  · intro t0 t h1
    have hf : [t0, t0 + 499].filter (fun τ => decide (τ ≤ t)) = [t0, t0 + 499] := by
      simp [List.filter, show t0 ≤ t by omega, show t0 + 499 ≤ t by omega]
    simp [CRSF_is_failsafe, hf, failsafe_after, failsafe_start, failsafe_on_channel_frame]
    omega

/-- Witness for C2: the lifecycle theorem instantiated at concrete times
(frame at 100 ms, second frame at 599 ms). -/
theorem c2_witness :
    CRSF_is_failsafe [] 400 = true ∧
    CRSF_is_failsafe [100] 100 = false ∧
    CRSF_is_failsafe [100] 600 = true ∧
    CRSF_is_failsafe [100, 599] 600 = false ∧
    CRSF_is_failsafe [100, 599] 1099 = true :=
  ⟨c2_failsafe_lifecycle.1 [] 400 (by simp),
   c2_failsafe_lifecycle.2.1 100 100 (by decide) (by decide),
   c2_failsafe_lifecycle.2.2.1 100 600 (by decide),
   c2_failsafe_lifecycle.2.2.2.1 100 600 (by decide) (by decide),
   c2_failsafe_lifecycle.2.2.2.2 100 1099 (by decide)⟩

/-- C6: for every signed value in the 24-bit range, packing through the
source's `bswap24` / `int32_to_int24` pipeline yields the sign-extended
big-endian wire triplet, and unpacking it with `int24_to_int32`'s
sign-extension from bit 23 restores the original value. -/
theorem c6_rpm_roundtrip (v : Int) (hlo : -8388608 ≤ v) (hhi : v ≤ 8388607) :
    rpm_unpack (rpm_pack v) = v := by
  have hm : ∀ x : Nat, x % 256 < 256 := fun x => Nat.mod_lt x (by norm_num)
  unfold rpm_pack rpm_unpack
  set u : Nat := toUInt32 v with hu
  obtain ⟨e0, e1, e2⟩ :=
    bytes_recompose (u % 256) (u / 256 % 256) (u / 65536 % 256) (hm u) (hm _) (hm _)
  rw [bswap24_eq, int32_to_int24_eq]
  simp only [e0, e1, e2]
  rw [int24_to_int32_eq (u % 256) (u / 256 % 256) (u / 65536 % 256) (hm u) (hm _) (hm _)]
  have hR : u / 65536 % 256 * 65536 + u / 256 % 256 * 256 + u % 256 = u % 2 ^ 24 := by omega
  rw [hR]
  have hcast : (u : Int) = v % 2 ^ 32 := by
    rw [hu]
    exact Int.toNat_of_nonneg (Int.emod_nonneg v (by norm_num))
  have hrc : ((u % 2 ^ 24 : Nat) : Int) = (u : Int) % 2 ^ 24 := by push_cast; ring
  by_cases hx : 2 ^ 23 ≤ u % 2 ^ 24
  · rw [if_pos hx]
    omega
  · rw [if_neg hx]
    omega

/-- Witness for C6: the round trip at -1000, at the largest 24-bit positive
value 8388607, and at the smallest 24-bit value -8388608. -/
theorem c6_witness :
    rpm_unpack (rpm_pack (-1000)) = -1000 ∧
    rpm_unpack (rpm_pack 8388607) = 8388607 ∧
    rpm_unpack (rpm_pack (-8388608)) = -8388608 :=
  ⟨c6_rpm_roundtrip (-1000) (by decide) (by decide),
   c6_rpm_roundtrip 8388607 (by decide) (by decide),
   c6_rpm_roundtrip (-8388608) (by decide) (by decide)⟩

/-- C7 (code bug): `CRSF_send_battery_data` does not place a general 24-bit
capacity on the wire big-endian.  For capacity 65536 (0x010000) the frame's
three capacity bytes (offsets 7–9, i.e. payload bytes 4–6) are `[0, 0, 0]`
while the big-endian encoding of 65536 is `[1, 0, 0]`: the high byte is
destroyed because the code runs the 24-bit field through the 16-bit
`__bswap16`. -/
theorem c7_capacity_high_byte_dropped :
    (((CRSF_send_battery_data 0xc8 ⟨0, 0, 65536, 100⟩).2.drop 7).take 3 = [0, 0, 0]) ∧
    [(65536 : Nat) / 65536 % 256, 65536 / 256 % 256, 65536 % 256] = [1, 0, 0] ∧
    ((CRSF_send_battery_data 0xc8 ⟨0, 0, 65536, 100⟩).2.drop 7).take 3 ≠
      [(65536 : Nat) / 65536 % 256, 65536 / 256 % 256, 65536 % 256] := by
  decide

/-- C8 (code bug): `CRSF_send_temp_data` applies no entry cap — called with
25 temperature entries it emits a frame of `4 + (1 + 2·25)` bytes, i.e. all
25 entries, neither truncated to 20 nor rejected — while
`CRSF_send_rpm_values` called with 20 entries does truncate to 19. -/
theorem c8_temp_send_uncapped_rpm_send_capped :
    ((CRSF_send_temp_data 0xc8 0 (List.replicate 25 100) 25).2).length = 4 + (1 + 2 * 25) ∧
    (CRSF_send_rpm_values 0xc8 0 (List.replicate 20 1000) 20).1 = 19 ∧
    ((CRSF_send_rpm_values 0xc8 0 (List.replicate 20 1000) 20).2).length = 4 + (1 + 3 * 19) := by
  decide

/-- Counterexample for C9: the battery send operation is not pure — sending
a battery struct with voltage 1 leaves the caller's struct holding voltage
256 (`__bswap16 1`), not its original field values. -/
theorem c9_counterexample_battery_struct_mutated :
    (CRSF_send_battery_data 0xc8 ⟨1, 0, 0, 0⟩).1 ≠ ⟨1, 0, 0, 0⟩ := by
  decide

/-- C9 (amended): the battery, GPS and temperature send operations mutate
the caller's struct in place, replacing each multi-byte field by its
byte-swapped form; the caller's struct holds its original values after the
call exactly when every multi-byte field is a fixed point of the swap. -/
theorem c9_amended_struct_preserved_iff_swap_invariant :
    (∀ b : CrsfBattery,
      ((CRSF_send_battery_data 0xc8 b).1 = b ↔
        __bswap16 b.voltage = b.voltage ∧ __bswap16 b.current = b.current ∧
          (__bswap16 b.capacity <<< 8) % 2 ^ 24 = b.capacity)) ∧
    (∀ g : CrsfGps,
      ((CRSF_send_gps_data 0xc8 g).1 = g ↔
        toInt32 (__bswap32 (toUInt32 g.latitude)) = g.latitude ∧
          toInt32 (__bswap32 (toUInt32 g.longitude)) = g.longitude ∧
          __bswap16 g.groundspeed = g.groundspeed ∧ __bswap16 g.heading = g.heading ∧
          __bswap16 g.altitude = g.altitude)) ∧
    (∀ temps : List Nat,
      ((CRSF_send_temp_data 0xc8 0 temps temps.length).1 = temps ↔
        ∀ x ∈ temps, __bswap16 x = x)) := by
  refine ⟨?_, ?_, ?_⟩
  · intro b
    cases b
    simp [CRSF_send_battery_data, CrsfBattery.mk.injEq, and_assoc]
  · intro g
    cases g
    simp [CRSF_send_gps_data, CrsfGps.mk.injEq, and_assoc]
  · intro temps
    simp [CRSF_send_temp_data, map_eq_self_iff]

/-- Witness for the amended C9: a battery struct whose fields are all
byte-swap fixed points (the all-zero struct) is indeed left unchanged. -/
theorem c9_witness :
    (CRSF_send_battery_data 0xc8 ⟨0, 0, 0, 0⟩).1 = ⟨0, 0, 0, 0⟩ :=
  (c9_amended_struct_preserved_iff_swap_invariant.1 ⟨0, 0, 0, 0⟩).mpr
    ⟨by decide, by decide, by decide⟩

end EspCrsf
